import Mathlib

/-!
Verification of the grid-pathfinding validation harness
(`utils/utils.py` and `tests/lab_test.py`).

The Python code is shallowly embedded: pure functions become Lean
functions, Python exceptions become `Except PyErr`, Python numbers that
may be floats become `Rat` (no claim here depends on float rounding), and
Python `int()` truncation toward zero becomes `py_int`.

The classes `Map` (from `utils/map.py`) and `BaseNode` (from
`utils/node.py`) are imported by the sources but their files are not part
of the repository snapshot; they are modelled from the spec where needed.
-/

/-- Kinds of Python exceptions that the embedded code can raise.
`valueError` carries the message of a Python `ValueError`; `err` stands
for any other exception object (search functions under test may raise
anything). -/
inductive PyErr where
  | valueError (msg : String)
  | err (msg : String)
deriving DecidableEq, Repr

/-- Embedding of `compute_cost` (utils/utils.py): returns 1 for a cardinal
move (Manhattan distance exactly 1) and raises `ValueError` otherwise.
The function receives only the four coordinates — no grid — so its result
cannot depend on traversability. -/
def compute_cost (i1 j1 i2 j2 : Int) : Except PyErr Nat :=
  if (i1 - i2).natAbs + (j1 - j2).natAbs = 1 then
    Except.ok 1
  else
    Except.error (PyErr.valueError
      "Trying to compute the cost of a non-supported move! ONLY cardinal moves are supported.")

/-- Splitting a character list at newline characters: the embedding of
Python `str.split("\n")` used by `convert_string_to_cells`. -/
def splitOnNl : List Char → List (List Char)
  | [] => [[]]
  | c :: rest =>
    let r := splitOnNl rest
    if c = '\n' then [] :: r
    else
      match r with
      | [] => [[c]]
      | l :: ls => (c :: l) :: ls

/-- Embedding of `convert_string_to_cells` (utils/utils.py): remove all
spaces, split into lines, drop empty lines, and map `#` to 1 (blocked)
and every other character to 0 (free). -/
def convert_string_to_cells (s : String) : List (List Nat) :=
  ((splitOnNl (s.toList.filter (fun c => c ≠ ' '))).filter (fun l => l ≠ [])).map
    (fun line => line.map (fun c => if c = '#' then (1 : Nat) else 0))

/-- Modelled from the spec: the `Map` class (utils/map.py is not in the
repository snapshot). An immutable occupancy grid: a matrix of cell
states, `1` blocked and `0` free. -/
structure Map where
  cells : List (List Nat)
deriving DecidableEq, Repr

/-- Modelled from the spec: `Map.traversable(i, j)` "returns false for any
out-of-bounds coordinate or any cell marked blocked; true otherwise".
Out-of-bounds lookups default to the blocked value 1. -/
def Map.traversable (m : Map) (i j : Nat) : Bool :=
  ((m.cells.getD i []).getD j 1) == 0

/-- Modelled from the spec: the `BaseNode` search-tree node
(utils/node.py is not in the repository snapshot): grid position,
accumulated cost `g`, and a back-reference to the parent node (empty for
the root, written here as two constructors so the type is a plain
inductive). The inductive type makes every parent chain finite and
acyclic, which is exactly the precondition the harness states for nodes
handed to it. -/
inductive Node where
  | base (i j : Nat) (g : Rat)
  | child (i j : Nat) (g : Rat) (parent : Node)

/-- Row position of a node. -/
def Node.i : Node → Nat
  | .base i _ _ => i
  | .child i _ _ _ => i

/-- Column position of a node. -/
def Node.j : Node → Nat
  | .base _ j _ => j
  | .child _ j _ _ => j

/-- Accumulated cost of a node. -/
def Node.g : Node → Rat
  | .base _ _ g => g
  | .child _ _ g _ => g

/-- Parent back-reference of a node: `none` for a root node, matching the
Python attribute `parent is None`. -/
def Node.parent : Node → Option Node
  | .base _ _ _ => none
  | .child _ _ _ p => some p

/-- Depth of a node's parent chain: 0 for a root. -/
def Node.depth : Node → Nat
  | .base _ _ _ => 0
  | .child _ _ _ p => p.depth + 1

/-- The root of a node's parent chain. -/
def Node.root : Node → Node
  | .base i j g => .base i j g
  | .child _ _ _ p => p.root

/-- The loop of `make_path`: follow parent pointers, collecting the nodes
goal-first, including the parentless root as the final element. -/
def makePathWalk : Node → List Node
  | .base i j g => [.base i j g]
  | .child i j g p => .child i j g p :: makePathWalk p

/-- Embedding of `make_path` (utils/utils.py): the length is read directly
from `goal.g`, the node list is collected goal-to-root and then reversed. -/
def make_path (goal : Node) : List Node × Rat :=
  ((makePathWalk goal).reverse, goal.g)

theorem makePathWalk_ne_nil (n : Node) : makePathWalk n ≠ [] := by
  cases n <;> simp [makePathWalk]

theorem makePathWalk_length (n : Node) : (makePathWalk n).length = n.depth + 1 := by
  induction n with
  | base i j g => simp [makePathWalk, Node.depth]
  | child i j g p ih => simpa [makePathWalk, Node.depth] using ih

theorem makePathWalk_head (n : Node) : (makePathWalk n).head? = some n := by
  cases n <;> simp [makePathWalk]

theorem makePathWalk_last (n : Node) : (makePathWalk n).getLast? = some n.root := by
  induction n with
  | base i j g => simp [makePathWalk, Node.root]
  | child i j g p ih =>
    rw [makePathWalk, Node.root]
    cases h : makePathWalk p with
    | nil => exact absurd h (makePathWalk_ne_nil p)
    | cons x xs =>
      rw [h] at ih
      rw [List.getLast?_cons_cons]
      exact ih

theorem root_parent_none (n : Node) : n.root.parent = none := by
  induction n with
  | base i j g => simp [Node.root, Node.parent]
  | child i j g p ih => simpa [Node.root] using ih

theorem makePathWalk_chain (n : Node) :
    List.Chain' (fun a b => a.parent = some b) (makePathWalk n) := by
  induction n with
  | base i j g => simp [makePathWalk]
  | child i j g p ih =>
    rw [makePathWalk]
    refine List.chain'_cons'.mpr ⟨?_, ih⟩
    intro y hy
    rw [makePathWalk_head p] at hy
    cases hy
    rfl

/-- C3: for a goal node `n` with parent chain of depth `k` (always finite
and acyclic in this model, matching the stated precondition), `make_path n`
returns a non-empty sequence of exactly `k+1` nodes, ordered root-first
(each element is the parent of the next), whose first element is the
parentless root of the chain and whose last element is `n` itself. -/
theorem make_path_structure (n : Node) :
    (make_path n).1 ≠ [] ∧
    (make_path n).1.length = n.depth + 1 ∧
    (make_path n).1.head? = some n.root ∧
    n.root.parent = none ∧
    (make_path n).1.getLast? = some n ∧
    List.Chain' (fun a b => b.parent = some a) (make_path n).1 := by
  refine ⟨?_, ?_, ?_, root_parent_none n, ?_, ?_⟩
  · simp [make_path, makePathWalk_ne_nil n]
  · simp [make_path, makePathWalk_length n]
  · rw [make_path]
    simpa [List.head?_reverse] using makePathWalk_last n
  · rw [make_path]
    simpa [List.getLast?_reverse] using makePathWalk_head n
  · rw [make_path]
    exact (List.chain'_reverse).mpr (by simpa [flip] using makePathWalk_chain n)

/-- C4: the total cost returned by `make_path` is read directly from the
goal node's `g` (never recomputed from edge costs, whatever the `g` values
along the chain are), and a parentless node yields the single-element
sequence containing only itself together with its own `g`. -/
theorem make_path_cost_from_goal (n : Node) :
    (make_path n).2 = n.g ∧
    (n.parent = none → make_path n = ([n], n.g)) := by
  constructor
  · rfl
  · intro h
    cases n with
    | base i j g => simp [make_path, makePathWalk, Node.g]
    | child i j g p => simp [Node.parent] at h

/-- Witness for C4 at a concrete parentless node. -/
theorem make_path_cost_from_goal_witness :
    make_path (Node.base 2 3 (5 : Rat)) = ([Node.base 2 3 (5 : Rat)], (5 : Rat)) :=
  (make_path_cost_from_goal (Node.base 2 3 (5 : Rat))).2 rfl

/-- C2: `compute_cost` returns 1 exactly on cardinal moves (Manhattan
distance 1) — it never sees the grid, so the result is independent of
traversability — and on every other offset it fails with the
invalid-move `ValueError` (the error the spec names `InvalidMoveError`),
never returning a value. -/
theorem compute_cost_cardinal_spec (i1 j1 i2 j2 : Int) :
    ((i1 - i2).natAbs + (j1 - j2).natAbs = 1 →
      compute_cost i1 j1 i2 j2 = Except.ok 1) ∧
    ((i1 - i2).natAbs + (j1 - j2).natAbs ≠ 1 →
      compute_cost i1 j1 i2 j2 = Except.error (PyErr.valueError
        "Trying to compute the cost of a non-supported move! ONLY cardinal moves are supported.")) := by
  constructor
  · intro h
    simp [compute_cost, h]
  · intro h
    simp [compute_cost, h]

/-- Witness for C2: a unit move costs 1, a diagonal move raises. -/
theorem compute_cost_cardinal_spec_witness :
    compute_cost 0 0 0 1 = Except.ok 1 ∧
    compute_cost 0 0 1 1 = Except.error (PyErr.valueError
      "Trying to compute the cost of a non-supported move! ONLY cardinal moves are supported.") :=
  ⟨(compute_cost_cardinal_spec 0 0 0 1).1 (by decide),
   (compute_cost_cardinal_spec 0 0 1 1).2 (by decide)⟩

/-- Python `int()` applied to a number: truncation toward zero
(`Int.tdiv` is truncated division). -/
def py_int (q : Rat) : Int := Int.tdiv q.num (q.den : Int)

/-- The fixed-shape result of the search-algorithm contract:
`(found, end_node, number_of_steps, search_tree_size, *other_results)`.
The trailing diagnostic collections are passed through unexamined by the
runner and play no role in any claim, so they are not modelled. -/
structure SearchResult where
  found : Bool
  endNode : Option Node
  steps : Int
  treeSize : Int

/-- The externally supplied search algorithm: called with the map and the
start/goal coordinates; may raise any exception (`Except.error`).
Extra `*args` are forwarded verbatim and not modelled. -/
def SearchFn : Type := Map → Nat → Nat → Nat → Nat → Except PyErr SearchResult

/-- One task descriptor as produced by `read_task_from_file`:
grid, start position, goal position, and reference path length. -/
structure TaskData where
  map : Map
  start_i : Nat
  start_j : Nat
  goal_i : Nat
  goal_j : Nat
  length : Rat

/-- The statistics dictionary of `massive_test`: four ordered sequences
under the keys "corr", "len", "st_size", "steps". -/
structure Stat where
  corr : List Bool
  len : List Rat
  st_size : List Int
  steps : List Int
deriving DecidableEq, Repr

/-- The initial empty statistics dictionary. -/
def emptyStat : Stat := ⟨[], [], [], []⟩

/-- The body of the `massive_test` loop for one task, after the task file
has been read: run the search function inside `try`; on success append to
the four statistics lists; any exception (from the search call or from
`make_path` on a `None` node) is caught and nothing is appended. -/
def runTask (search : SearchFn) (t : TaskData) (s : Stat) : Stat :=
  match search t.map t.start_i t.start_j t.goal_i t.goal_j with
  | .error _ => s
  | .ok res =>
    if res.found then
      match res.endNode with
      | none => s
      | some n =>
        let pl := (make_path n).2
        let c := decide (py_int pl = py_int t.length)
        { corr := s.corr ++ [c], len := s.len ++ [pl],
          st_size := s.st_size ++ [res.treeSize], steps := s.steps ++ [res.steps] }
    else
      { corr := s.corr ++ [false], len := s.len ++ [0],
        st_size := s.st_size ++ [res.treeSize], steps := s.steps ++ [res.steps] }

/-- The `massive_test` loop over task indices: reading a task
(`read_task_from_file`, modelled as the task source `src`) happens outside
the `try` block, so a failing read propagates; the per-task body is
`runTask`. -/
def runTasks (search : SearchFn) (src : Nat → Except PyErr TaskData) :
    List Nat → Stat → Except PyErr Stat
  | [], s => Except.ok s
  | k :: ks, s =>
    match src k with
    | .error e => Except.error e
    | .ok t => runTasks search src ks (runTask search t s)

/-- Embedding of `massive_test` (tests/lab_test.py): a `None`, zero or
negative task count returns the empty statistics immediately; otherwise
tasks `0 .. num_of_tasks - 1` are processed in order. File access is
modelled by the task source `src` (task index to task data or error). -/
def massive_test (search : SearchFn) (src : Nat → Except PyErr TaskData)
    (num_of_tasks : Option Int) : Except PyErr Stat :=
  match num_of_tasks with
  | none => Except.ok emptyStat
  | some n => if n ≤ 0 then Except.ok emptyStat else runTasks search src (List.range n.toNat) emptyStat

/-- Whether the `massive_test` loop body appends an entry for a task:
true unless the search call raises or reports `found` with no goal node
(in which case `make_path(None)` raises and is caught). -/
def recorded (search : SearchFn) (t : TaskData) : Bool :=
  match search t.map t.start_i t.start_j t.goal_i t.goal_j with
  | .error _ => false
  | .ok res => if res.found then res.endNode.isSome else true

/-- Number of task indices in a list for which the loop body appends a
statistics entry. -/
def recordedCountL (search : SearchFn) (src : Nat → Except PyErr TaskData)
    (ks : List Nat) : Nat :=
  (ks.filter (fun k =>
    match src k with
    | .ok t => recorded search t
    | .error _ => false)).length

/-- Number of tasks among `0 .. n-1` for which the loop body appends a
statistics entry. -/
def recordedCount (search : SearchFn) (src : Nat → Except PyErr TaskData) (n : Nat) : Nat :=
  recordedCountL search src (List.range n)

/-- Task-index normalization shared by `simple_test` (bound 25) and
`simple_test_not_found` (bound 2): a `None` or out-of-range task number is
replaced by the result `r` of `random.randint(0, bound - 1)`, modelled as
an explicit parameter. -/
def pickTask (bound : Nat) (task : Option Int) (r : Nat) : Nat :=
  match task with
  | none => r
  | some t => if 0 ≤ t ∧ t < (bound : Int) then t.toNat else r

/-- The curated map string of `simple_test` (tests/lab_test.py). -/
def simpleMapStr : String :=
"
. . . . . . . . . . . . . . . . . . . . . # # . . . . . . .
. . . . . . . . . . . . . . . . . . . . . # # . . . . . . .
. . . . . . . . . . . . . . . . . . . . . # # . . . . . . .
. . . # # . . . . . . . . . . . . . . . . # # . . . . . . .
. . . # # . . . . . . . . # # . . . . . . # # . . . . . . .
. . . # # . . . . . . . . # # . . . . . . # # # # # . . . .
. . . # # . . . . . . . . # # . . . . . . # # # # # . . . .
. . . # # . . . . . . . . # # . . . . . . . . . . . . . . .
. . . # # . . . . . . . . # # . . . . . . . . . . . . . . .
. . . # # . . . . . . . . # # . . . . . . . . . . . . . . .
. . . # # . . . . . . . . # # . . . . . . . . . . . . . . .
. . . # # . . . . . . . . # # . . . . . . . . . . . . . . .
. . . . . . . . . . . . . # # . . . . . . . . . . . . . . .
. . . . . . . . . . . . . # # . . . . . . . . . . . . . . .
. . . . . . . . . . . . . # # . . . . . . . . . . . . . . .
"

/-- The curated map of `simple_test`, built exactly as in the source:
`Map(convert_string_to_cells(map_str))`. -/
def simpleMap : Map := ⟨convert_string_to_cells simpleMapStr⟩

/-- The start pool of `simple_test`. -/
def starts : List (Nat × Nat) :=
  [(9, 0), (13, 0), (7, 28), (14, 29), (4, 1), (0, 17), (5, 6), (5, 20), (12, 2),
   (7, 28), (11, 9), (3, 2), (3, 17), (13, 20), (1, 1), (9, 10), (14, 6), (2, 0),
   (9, 28), (8, 6), (11, 6), (3, 0), (8, 9), (14, 7), (12, 4)]

/-- The goal pool of `simple_test`. -/
def goals : List (Nat × Nat) :=
  [(11, 20), (2, 19), (6, 5), (4, 18), (9, 20), (7, 0), (2, 25), (12, 4), (3, 25),
   (0, 12), (4, 23), (2, 24), (9, 2), (1, 6), (13, 29), (14, 29), (2, 28), (14, 16),
   (13, 0), (1, 27), (14, 25), (10, 20), (12, 28), (2, 29), (1, 29)]

/-- The expected-length pool of `simple_test`. -/
def lengths : List Nat :=
  [36, 30, 30, 21, 28, 24, 32, 27, 42, 23, 35, 37, 23, 26, 40, 36, 42, 28, 44, 36,
   38, 29, 33, 42, 44]

/-- Observable outcome of `simple_test`: what the function prints
(`Path found!` with its statistics and correctness flag, `Path not
found!`, or `Execution error`). -/
inductive SimpleOutcome where
  | pathFound (length : Rat) (treeSize : Int) (steps : Int) (correct : Bool)
  | pathNotFound
  | executionError (e : PyErr)
deriving DecidableEq

/-- Embedding of `simple_test` (tests/lab_test.py): normalize the task
index, look up start/goal/expected length, run the search function inside
`try`; on `found` reconstruct the path and compare truncated lengths; a
`found` result with no goal node makes `make_path(None)` raise an
`AttributeError`, caught by the same handler. Drawing and printing are
represented by the returned outcome value. -/
def simple_test (search : SearchFn) (task : Option Int) (r : Nat) : SimpleOutcome :=
  let t := pickTask 25 task r
  let start := starts.getD t (0, 0)
  let goal := goals.getD t (0, 0)
  let length := lengths.getD t 0
  match search simpleMap start.1 start.2 goal.1 goal.2 with
  | .error e => .executionError e
  | .ok res =>
    if res.found then
      match res.endNode with
      | none => .executionError (.err "AttributeError")
      | some n =>
        let pl := (make_path n).2
        .pathFound pl res.treeSize res.steps (decide (py_int pl = py_int ((length : Nat) : Rat)))
    else .pathNotFound

/-- The map string of `simple_test_not_found` (tests/lab_test.py). -/
def notFoundMapStr : String :=
"
. . . . . . . . . . . . . . . . . . . . . # # . . . . . . .
. . . . . . . . . . . . . . . . . . . . . # # . . . . . . .
. . . . . . . . . . . . . . . . . . . . . # # . . . . . . .
. . . # # . . . . . . . . . . . . . . . . # # . . . . . . .
. . . # # . . . . . . . . # # . . . . . . # # . . . . . . .
. . . # # . . . . . . . . # # . . . . . . # # # # # . . . .
. . . # # . . . . . . . . # # . . . . . . # # # # # . . . .
. . . # # . . . . . . # # # # . . . . . . # . . . . . . . .
. . . # # . . . . . . # . # # . . . . . . # . . . . . . . .
. . . # # . . . . . . # . # # . . . . . . # . . . . . . . .
. . . # # . . . . . . # . # # . . . . . . # . . . . . . . .
. . . # # . . . . . . # # # # . . . . . . # . . . . . . . .
. . . . . . . . . . . . . # # . . . . . . # . . . . . . . .
. . . . . . . . . . . . . # # . . . . . . # . . . . . . . .
. . . . . . . . . . . . . # # . . . . . . # . . . . . . . .
"

/-- The map of `simple_test_not_found`. -/
def notFoundMap : Map := ⟨convert_string_to_cells notFoundMapStr⟩

/-- The start pool of `simple_test_not_found`. -/
def startsNF : List (Nat × Nat) := [(0, 0), (0, 0)]

/-- The goal pool of `simple_test_not_found`. -/
def goalsNF : List (Nat × Nat) := [(14, 25), (9, 12)]

/-- Observable outcome of `simple_test_not_found`: not finding a path is
reported with `Correct: True`; finding one is reported with
`Correct: False`. -/
inductive NotFoundOutcome where
  | notFoundCorrect (treeSize : Int) (steps : Int)
  | foundIncorrect (length : Rat) (treeSize : Int) (steps : Int)
  | executionError (e : PyErr)
deriving DecidableEq

/-- Embedding of `simple_test_not_found` (tests/lab_test.py). -/
def simple_test_not_found (search : SearchFn) (task : Option Int) (r : Nat) :
    NotFoundOutcome :=
  let t := pickTask 2 task r
  let start := startsNF.getD t (0, 0)
  let goal := goalsNF.getD t (0, 0)
  match search notFoundMap start.1 start.2 goal.1 goal.2 with
  | .error e => .executionError e
  | .ok res =>
    if res.found then
      match res.endNode with
      | none => .executionError (.err "AttributeError")
      | some n => .foundIncorrect (make_path n).2 res.treeSize res.steps
    else .notFoundCorrect res.treeSize res.steps

/-- A search function that reports "not found" on every task. -/
def stubSearch : SearchFn := fun _ _ _ _ _ => Except.ok ⟨false, none, 0, 0⟩

/-- A search function that raises on every task. -/
def failSearch : SearchFn := fun _ _ _ _ _ => Except.error (PyErr.err "boom")

/-- A task source that always succeeds, with a trivial task. -/
def unitTaskSrc : Nat → Except PyErr TaskData := fun _ => Except.ok ⟨simpleMap, 0, 0, 0, 0, 0⟩

/-- A task source whose files are malformed: every read raises. -/
def badTaskSrc : Nat → Except PyErr TaskData := fun _ => Except.error (PyErr.err "bad file")

theorem runTask_lengths (search : SearchFn) (t : TaskData) (s : Stat) :
    (runTask search t s).corr.length = s.corr.length + (if recorded search t then 1 else 0) ∧
    (runTask search t s).len.length = s.len.length + (if recorded search t then 1 else 0) ∧
    (runTask search t s).st_size.length = s.st_size.length + (if recorded search t then 1 else 0) ∧
    (runTask search t s).steps.length = s.steps.length + (if recorded search t then 1 else 0) := by
  cases hs : search t.map t.start_i t.start_j t.goal_i t.goal_j with
  | error e => simp [runTask, recorded, hs]
  | ok res =>
    cases hf : res.found with
    | false => simp [runTask, recorded, hs, hf]
    | true =>
      cases hn : res.endNode with
      | none => simp [runTask, recorded, hs, hf, hn]
      | some n => simp [runTask, recorded, hs, hf, hn]

theorem runTasks_ok_shape (search : SearchFn) (src : Nat → Except PyErr TaskData) :
    ∀ (ks : List Nat) (s : Stat), (∀ k ∈ ks, ∃ t, src k = Except.ok t) →
      ∃ st, runTasks search src ks s = Except.ok st ∧
        st.corr.length = s.corr.length + recordedCountL search src ks ∧
        st.len.length = s.len.length + recordedCountL search src ks ∧
        st.st_size.length = s.st_size.length + recordedCountL search src ks ∧
        st.steps.length = s.steps.length + recordedCountL search src ks := by
  intro ks
  induction ks with
  | nil =>
    intro s _
    exact ⟨s, rfl, by simp [recordedCountL], by simp [recordedCountL],
      by simp [recordedCountL], by simp [recordedCountL]⟩
  | cons k ks ih =>
    intro s h
    obtain ⟨t, ht⟩ := h k (List.mem_cons_self k ks)
    obtain ⟨st, hrun, h1, h2, h3, h4⟩ :=
      ih (runTask search t s) (fun j hj => h j (List.mem_cons_of_mem k hj))
    refine ⟨st, ?_, ?_, ?_, ?_, ?_⟩
    · rw [runTasks, ht]
      exact hrun
    all_goals {
      obtain ⟨l1, l2, l3, l4⟩ := runTask_lengths search t s
      have hcnt : recordedCountL search src (k :: ks) =
          (if recorded search t then 1 else 0) + recordedCountL search src ks := by
        simp only [recordedCountL, List.filter_cons, ht]
        by_cases hr : recorded search t
        · simp [hr]
          omega
        · simp [hr]
      omega
    }

/-- C5: a `None`, zero or negative task count makes `massive_test` return
the empty statistics mapping without raising, and without invoking the
search function or the task source (the result does not depend on them). -/
theorem massive_test_invalid_count (search : SearchFn)
    (src : Nat → Except PyErr TaskData) (num : Option Int)
    (h : num = none ∨ ∃ n : Int, num = some n ∧ n ≤ 0) :
    massive_test search src num = Except.ok ⟨[], [], [], []⟩ ∧
    (∀ (search2 : SearchFn) (src2 : Nat → Except PyErr TaskData),
      massive_test search src num = massive_test search2 src2 num) := by
  rcases h with h | ⟨n, hn, hneg⟩
  · subst h
    exact ⟨rfl, fun _ _ => rfl⟩
  · subst hn
    constructor
    · simp [massive_test, hneg, emptyStat]
    · intro search2 src2
      simp [massive_test, hneg]

/-- Witness for C5 at task count 0. -/
theorem massive_test_invalid_count_witness :
    massive_test stubSearch unitTaskSrc (some 0) = Except.ok ⟨[], [], [], []⟩ :=
  (massive_test_invalid_count stubSearch unitTaskSrc (some 0)
    (Or.inr ⟨0, rfl, le_refl 0⟩)).1

/-- Counterexample for C1 as stated: with a single-task batch whose search
function raises, the "len" statistics sequence does not have one entry per
task — the caught failure appends nothing. -/
theorem massive_test_uncounted_failure_cex :
    ¬ (∀ st : Stat, massive_test failSearch unitTaskSrc (some 1) = Except.ok st →
        st.len.length = 1) := by
  intro h
  have h0 : massive_test failSearch unitTaskSrc (some 1) = Except.ok emptyStat := rfl
  have h1 := h emptyStat h0
  simp [emptyStat] at h1

/-- C1 (amended): in a batch of `n` tasks whose task files all load, every
exception raised by the search function is caught at that task's boundary
and the remaining tasks are still evaluated — `massive_test` returns
normally — but a failed task is not recorded: each of the four statistics
sequences has exactly one entry per task whose loop body appended one
(search call succeeded, and `found` implied a goal node), all four staying
mutually equal in length. -/
theorem massive_test_failure_isolation (search : SearchFn)
    (src : Nat → Except PyErr TaskData) (n : Int)
    (hsrc : ∀ k, k < n.toNat → ∃ t, src k = Except.ok t) :
    ∃ st, massive_test search src (some n) = Except.ok st ∧
      st.corr.length = recordedCount search src n.toNat ∧
      st.len.length = recordedCount search src n.toNat ∧
      st.st_size.length = recordedCount search src n.toNat ∧
      st.steps.length = recordedCount search src n.toNat := by
  by_cases hn : n ≤ 0
  · refine ⟨emptyStat, by simp [massive_test, hn], ?_⟩
    have h0 : n.toNat = 0 := by omega
    simp [h0, recordedCount, recordedCountL, emptyStat]
  · obtain ⟨st, hrun, h1, h2, h3, h4⟩ :=
      runTasks_ok_shape search src (List.range n.toNat) emptyStat
        (fun k hk => hsrc k (List.mem_range.mp hk))
    refine ⟨st, ?_, ?_, ?_, ?_, ?_⟩
    · simp only [massive_test, if_neg hn]
      exact hrun
    · simpa [emptyStat, recordedCount] using h1
    · simpa [emptyStat, recordedCount] using h2
    · simpa [emptyStat, recordedCount] using h3
    · simpa [emptyStat, recordedCount] using h4

/-- Witness for C1's amended theorem: a 2-task batch whose search function
always raises completes with all four sequences empty. -/
theorem massive_test_failure_isolation_witness :
    ∃ st, massive_test failSearch unitTaskSrc (some 2) = Except.ok st ∧
      st.corr.length = recordedCount failSearch unitTaskSrc (2 : Int).toNat ∧
      st.len.length = recordedCount failSearch unitTaskSrc (2 : Int).toNat ∧
      st.st_size.length = recordedCount failSearch unitTaskSrc (2 : Int).toNat ∧
      st.steps.length = recordedCount failSearch unitTaskSrc (2 : Int).toNat :=
  massive_test_failure_isolation failSearch unitTaskSrc 2
    (fun _ _ => ⟨⟨simpleMap, 0, 0, 0, 0, 0⟩, rfl⟩)

/-- C6: in both comparison modes, whenever the search function reports a
found path, the recorded correctness flag is true exactly when the
reconstructed length and the expected length are equal after truncation to
integers. Part one is `simple_test`, part two the `massive_test` loop
body. -/
theorem correctness_flag_truncated_eq :
    (∀ (search : SearchFn) (task : Option Int) (r : Nat) (L : Rat) (ts st : Int) (c : Bool),
      simple_test search task r = SimpleOutcome.pathFound L ts st c →
      (c = true ↔ py_int L = py_int ((lengths.getD (pickTask 25 task r) 0 : Nat) : Rat))) ∧
    (∀ (search : SearchFn) (t : TaskData) (s : Stat) (res : SearchResult) (n : Node),
      search t.map t.start_i t.start_j t.goal_i t.goal_j = Except.ok res →
      res.found = true → res.endNode = some n →
      (runTask search t s).corr = s.corr ++ [decide (py_int (make_path n).2 = py_int t.length)] ∧
      (runTask search t s).len = s.len ++ [(make_path n).2]) := by
  constructor
  · intro search task r L ts st c h
    simp only [simple_test] at h
    split at h
    · exact absurd h (by simp)
    · split at h
      · split at h
        · exact absurd h (by simp)
        · rw [SimpleOutcome.pathFound.injEq] at h
          obtain ⟨hL, _, _, hc⟩ := h
          subst hL
          subst hc
          simp
      · exact absurd h (by simp)
  · intro search t s res n hs hf hn
    simp [runTask, hs, hf, hn]

/-- Witness for C6: a search function returning a root goal node with
`g = 36` on task 0 of `simple_test` (expected length 36) yields a
correctness flag that is true. -/
theorem correctness_flag_truncated_eq_witness :
    ((true : Bool) = true ↔
      py_int (36 : Rat) = py_int ((lengths.getD (pickTask 25 (some 0) 0) 0 : Nat) : Rat)) ∧
    (runTask (fun _ _ _ _ _ => Except.ok ⟨true, some (Node.base 11 20 36), 7, 9⟩)
        ⟨simpleMap, 9, 0, 11, 20, 36⟩ emptyStat).corr =
      emptyStat.corr ++ [decide (py_int (make_path (Node.base 11 20 36)).2 = py_int (36 : Rat))] :=
  ⟨correctness_flag_truncated_eq.1
      (fun _ _ _ _ _ => Except.ok ⟨true, some (Node.base 11 20 36), 7, 9⟩)
      (some 0) 0 36 9 7 true rfl,
   (correctness_flag_truncated_eq.2
      (fun _ _ _ _ _ => Except.ok ⟨true, some (Node.base 11 20 36), 7, 9⟩)
      ⟨simpleMap, 9, 0, 11, 20, 36⟩ emptyStat ⟨true, some (Node.base 11 20 36), 7, 9⟩
      (Node.base 11 20 36) rfl rfl rfl).1⟩

theorem runTasks_cons (search : SearchFn) (src : Nat → Except PyErr TaskData)
    (k : Nat) (ks : List Nat) (s : Stat) :
    runTasks search src (k :: ks) s =
      match src k with
      | Except.error e => Except.error e
      | Except.ok t => runTasks search src ks (runTask search t s) := rfl

theorem runTasks_append (search : SearchFn) (src : Nat → Except PyErr TaskData) :
    ∀ (l1 l2 : List Nat) (s : Stat),
      runTasks search src (l1 ++ l2) s =
        match runTasks search src l1 s with
        | Except.ok s2 => runTasks search src l2 s2
        | Except.error e => Except.error e := by
  intro l1
  induction l1 with
  | nil => intro l2 s; rfl
  | cons k ks ih =>
    intro l2 s
    rw [List.cons_append, runTasks, runTasks]
    cases src k with
    | error e => rfl
    | ok t => exact ih l2 (runTask search t s)

/-- C7: if reading the task file for some index `k` in range raises (all
earlier reads succeeding), the exception propagates out of `massive_test`
uncaught, aborting the batch — task reading happens outside the per-task
`try` block that shields search-function exceptions. -/
theorem massive_test_bad_task_propagates (search : SearchFn)
    (src : Nat → Except PyErr TaskData) (n : Int) (k : Nat) (e : PyErr)
    (hk : (k : Int) < n) (hfail : src k = Except.error e)
    (hok : ∀ j, j < k → ∃ t, src j = Except.ok t) :
    massive_test search src (some n) = Except.error e := by
  have hn : ¬ n ≤ 0 := by omega
  have hkn : k < n.toNat := by omega
  simp only [massive_test, if_neg hn]
  obtain ⟨m, hm⟩ : ∃ m, n.toNat - k = m + 1 := ⟨n.toNat - k - 1, by omega⟩
  have hsplit : List.range n.toNat =
      List.range k ++ (k :: (List.range m).map (fun x => k + (x + 1))) := by
    have h1 : n.toNat = k + (m + 1) := by omega
    rw [h1, List.range_add, List.range_succ_eq_map]
    simp [List.map_map, Function.comp]
  rw [hsplit, runTasks_append]
  obtain ⟨st, hrun, _⟩ :=
    runTasks_ok_shape search src (List.range k) emptyStat
      (fun j hj => hok j (List.mem_range.mp hj))
  rw [hrun]
  show runTasks search src (k :: (List.range m).map (fun x => k + (x + 1))) st = Except.error e
  rw [runTasks_cons, hfail]

/-- Witness for C7: a batch of one task whose task file read raises. -/
theorem massive_test_bad_task_propagates_witness :
    massive_test stubSearch badTaskSrc (some 1) = Except.error (PyErr.err "bad file") :=
  massive_test_bad_task_propagates stubSearch badTaskSrc 1 0 (PyErr.err "bad file")
    (by decide) rfl (fun j hj => absurd hj (Nat.not_lt_zero j))

theorem pickTask_lt (bound : Nat) (task : Option Int) (r : Nat)
    (hr : r < bound) : pickTask bound task r < bound := by
  cases task with
  | none => simpa [pickTask] using hr
  | some t =>
    simp only [pickTask]
    split
    · next h => omega
    · exact hr

/-- C10: a `None` or out-of-range task argument is silently replaced by
the (arbitrary, modelled) result of `random.randint` over the valid range,
so the normalized index is always in bounds for the start/goal/length
pools of both single-task runners and no pool lookup can go out of
range. -/
theorem task_index_normalization (task : Option Int) (r1 r2 : Nat)
    (h1 : r1 ≤ 24) (h2 : r2 ≤ 1) :
    pickTask 25 task r1 < starts.length ∧
    pickTask 25 task r1 < goals.length ∧
    pickTask 25 task r1 < lengths.length ∧
    pickTask 2 task r2 < startsNF.length ∧
    pickTask 2 task r2 < goalsNF.length ∧
    (task = none → pickTask 25 task r1 = r1 ∧ pickTask 2 task r2 = r2) ∧
    (∀ t : Int, task = some t → ¬ (0 ≤ t ∧ t < 25) → pickTask 25 task r1 = r1) ∧
    (∀ t : Int, task = some t → ¬ (0 ≤ t ∧ t < 2) → pickTask 2 task r2 = r2) := by
  have hs : starts.length = 25 := by decide
  have hg : goals.length = 25 := by decide
  have hl : lengths.length = 25 := by decide
  have hsn : startsNF.length = 2 := by decide
  have hgn : goalsNF.length = 2 := by decide
  refine ⟨?_, ?_, ?_, ?_, ?_, ?_, ?_, ?_⟩
  · rw [hs]; exact pickTask_lt 25 task r1 (by omega)
  · rw [hg]; exact pickTask_lt 25 task r1 (by omega)
  · rw [hl]; exact pickTask_lt 25 task r1 (by omega)
  · rw [hsn]; exact pickTask_lt 2 task r2 (by omega)
  · rw [hgn]; exact pickTask_lt 2 task r2 (by omega)
  · intro h; subst h; exact ⟨rfl, rfl⟩
  · intro t h hrange
    subst h
    simp only [pickTask]
    rw [if_neg (by exact_mod_cast hrange)]
  · intro t h hrange
    subst h
    simp only [pickTask]
    rw [if_neg (by exact_mod_cast hrange)]

/-- Witness for C10 at an out-of-range task number. -/
theorem task_index_normalization_witness :
    pickTask 25 (some (-3)) 5 < starts.length ∧
    pickTask 25 (some (-3)) 5 < goals.length ∧
    pickTask 25 (some (-3)) 5 < lengths.length ∧
    pickTask 2 (some (-3)) 1 < startsNF.length ∧
    pickTask 2 (some (-3)) 1 < goalsNF.length ∧
    (some (-3) = none → pickTask 25 (some (-3)) 5 = 5 ∧ pickTask 2 (some (-3)) 1 = 1) ∧
    (∀ t : Int, some (-3) = some t → ¬ (0 ≤ t ∧ t < 25) → pickTask 25 (some (-3)) 5 = 5) ∧
    (∀ t : Int, some (-3) = some t → ¬ (0 ≤ t ∧ t < 2) → pickTask 2 (some (-3)) 1 = 1) :=
  task_index_normalization (some (-3)) 5 1 (by omega) (by omega)

/-- A single step of a candidate path: both cells traversable and the move
priced 1 by `compute_cost` (that is, cardinal-adjacent). -/
def stepOK (m : Map) (a b : Nat × Nat) : Bool :=
  m.traversable a.1 a.2 && m.traversable b.1 b.2 &&
    (match compute_cost (a.1 : Int) (a.2 : Int) (b.1 : Int) (b.2 : Int) with
     | Except.ok c => c == 1
     | Except.error _ => false)

/-- Every consecutive pair of a candidate path is a valid step. -/
def chainOK (m : Map) : List (Nat × Nat) → Bool
  | [] => true
  | [_] => true
  | a :: b :: rest => stepOK m a b && chainOK m (b :: rest)

/-- A valid 4-connected path through traversable cells from `s` to `g`
under the unit-cost model of `compute_cost`. -/
def validPath (m : Map) (s g : Nat × Nat) (p : List (Nat × Nat)) : Bool :=
  !p.isEmpty && (p.head? == some s) && (p.getLast? == some g) &&
    m.traversable s.1 s.2 && chainOK m p

/-- Number of moves of a path (cells minus one); this is the length the
unit-cost model assigns to it. -/
def pathLen (p : List (Nat × Nat)) : Nat := p.length - 1

/-- Check that two cells, when both traversable, have table values that
differ by at most one. -/
def pairBound (m : Map) (d : Nat × Nat → Nat) (a b : Nat × Nat) : Bool :=
  !(m.traversable a.1 a.2 && m.traversable b.1 b.2) ||
    (decide (d a ≤ d b + 1) && decide (d b ≤ d a + 1))

/-- The distance-certificate check: every vertically or horizontally
adjacent pair of traversable cells inside `h × w` has table values that
differ by at most one. -/
def certOK (m : Map) (d : Nat × Nat → Nat) (h w : Nat) : Bool :=
  (List.range h).all (fun i => (List.range w).all (fun j =>
    pairBound m d (i, j) (i + 1, j) && pairBound m d (i, j) (i, j + 1)))

theorem traversable_lt (m : Map) (i j : Nat) (h : m.traversable i j = true) :
    i < m.cells.length ∧ j < (m.cells.getD i []).length := by
  constructor
  · by_contra hi
    have he : m.cells.getD i [] = [] := List.getD_eq_default _ _ (by omega)
    rw [Map.traversable, he] at h
    simp [List.getD] at h
  · by_contra hj
    have he : (m.cells.getD i []).getD j 1 = 1 := List.getD_eq_default _ _ (by omega)
    rw [Map.traversable, he] at h
    simp at h

theorem step_offsets (m : Map) (a1 a2 b1 b2 : Nat)
    (h : stepOK m (a1, a2) (b1, b2) = true) :
    m.traversable a1 a2 = true ∧ m.traversable b1 b2 = true ∧
    ((b1 = a1 + 1 ∧ b2 = a2) ∨ (a1 = b1 + 1 ∧ a2 = b2) ∨
     (b2 = a2 + 1 ∧ b1 = a1) ∨ (a2 = b2 + 1 ∧ a1 = b1)) := by
  simp only [stepOK, Bool.and_eq_true] at h
  obtain ⟨⟨ha, hb⟩, hc⟩ := h
  refine ⟨ha, hb, ?_⟩
  by_cases hd : ((a1 : Int) - (b1 : Int)).natAbs + ((a2 : Int) - (b2 : Int)).natAbs = 1
  · omega
  · rw [compute_cost] at hc
    rw [if_neg hd] at hc
    simp at hc

theorem certOK_all (m : Map) (d : Nat × Nat → Nat) (h w : Nat)
    (hc : certOK m d h w = true) (i j : Nat) (hi : i < h) (hj : j < w) :
    pairBound m d (i, j) (i + 1, j) = true ∧ pairBound m d (i, j) (i, j + 1) = true := by
  simp only [certOK, List.all_eq_true] at hc
  have := hc i (List.mem_range.mpr hi) j (List.mem_range.mpr hj)
  exact Bool.and_eq_true_iff.mp this

theorem pairBound_le (m : Map) (d : Nat × Nat → Nat) (a b : Nat × Nat)
    (h : pairBound m d a b = true)
    (ha : m.traversable a.1 a.2 = true) (hb : m.traversable b.1 b.2 = true) :
    d a ≤ d b + 1 ∧ d b ≤ d a + 1 := by
  simp [pairBound, ha, hb] at h
  exact h

theorem step_dval_bound (m : Map) (d : Nat × Nat → Nat) (h w : Nat)
    (hh : m.cells.length ≤ h) (hw : ∀ i, (m.cells.getD i []).length ≤ w)
    (hcert : certOK m d h w = true) :
    ∀ a b, stepOK m a b = true → d a ≤ d b + 1 := by
  intro a b hs
  obtain ⟨a1, a2⟩ := a
  obtain ⟨b1, b2⟩ := b
  obtain ⟨ha, hb, hoff⟩ := step_offsets m a1 a2 b1 b2 hs
  obtain ⟨hai, haj⟩ := traversable_lt m a1 a2 ha
  obtain ⟨hbi, hbj⟩ := traversable_lt m b1 b2 hb
  have hai2 : a1 < h := lt_of_lt_of_le hai hh
  have haj2 : a2 < w := lt_of_lt_of_le haj (hw a1)
  have hbi2 : b1 < h := lt_of_lt_of_le hbi hh
  have hbj2 : b2 < w := lt_of_lt_of_le hbj (hw b1)
  rcases hoff with ⟨e1, e2⟩ | ⟨e1, e2⟩ | ⟨e1, e2⟩ | ⟨e1, e2⟩
  · rw [e1, e2] at hb ⊢
    exact (pairBound_le m d (a1, a2) (a1 + 1, a2)
      (certOK_all m d h w hcert a1 a2 hai2 haj2).1 ha hb).1
  · rw [e1, e2] at ha ⊢
    exact (pairBound_le m d (b1, b2) (b1 + 1, b2)
      (certOK_all m d h w hcert b1 b2 hbi2 hbj2).1 hb ha).2
  · rw [e1, e2] at hb ⊢
    exact (pairBound_le m d (a1, a2) (a1, a2 + 1)
      (certOK_all m d h w hcert a1 a2 hai2 haj2).2 ha hb).1
  · rw [e1, e2] at ha ⊢
    exact (pairBound_le m d (b1, b2) (b1, b2 + 1)
      (certOK_all m d h w hcert b1 b2 hbi2 hbj2).2 hb ha).2

theorem chain_dval (m : Map) (d : Nat × Nat → Nat)
    (hstep : ∀ a b, stepOK m a b = true → d a ≤ d b + 1) :
    ∀ (p : List (Nat × Nat)) (a z : Nat × Nat), chainOK m p = true →
      p.head? = some a → p.getLast? = some z → d a ≤ d z + (p.length - 1) := by
  intro p
  induction p with
  | nil => intro a z _ hh; simp at hh
  | cons x xs ih =>
    intro a z hch hh hl
    cases xs with
    | nil =>
      simp at hh hl
      subst hh; subst hl
      simp
    | cons y ys =>
      obtain ⟨h1, h2⟩ : stepOK m x y = true ∧ chainOK m (y :: ys) = true := by
        simpa [chainOK, Bool.and_eq_true] using hch
      simp only [List.head?_cons, Option.some.injEq] at hh
      subst hh
      have hl2 : (y :: ys).getLast? = some z := by
        simpa [List.getLast?_cons_cons] using hl
      have hrec := ih y z h2 rfl hl2
      have hxy := hstep x y h1
      simp only [List.length_cons] at hrec ⊢
      omega

theorem validPath_parts (m : Map) (s g : Nat × Nat) (p : List (Nat × Nat))
    (h : validPath m s g p = true) :
    p.head? = some s ∧ p.getLast? = some g ∧ chainOK m p = true := by
  simp only [validPath, Bool.and_eq_true, beq_iff_eq] at h
  exact ⟨h.1.1.1.2, h.1.1.2, h.2⟩
def simpleCells : List (List Nat) :=
  [
   [0, 0, 0, 0, 0, 0, 0, 0, 0, 0, 0, 0, 0, 0, 0, 0, 0, 0, 0, 0, 0, 1, 1, 0, 0, 0, 0, 0, 0, 0],
   [0, 0, 0, 0, 0, 0, 0, 0, 0, 0, 0, 0, 0, 0, 0, 0, 0, 0, 0, 0, 0, 1, 1, 0, 0, 0, 0, 0, 0, 0],
   [0, 0, 0, 0, 0, 0, 0, 0, 0, 0, 0, 0, 0, 0, 0, 0, 0, 0, 0, 0, 0, 1, 1, 0, 0, 0, 0, 0, 0, 0],
   [0, 0, 0, 1, 1, 0, 0, 0, 0, 0, 0, 0, 0, 0, 0, 0, 0, 0, 0, 0, 0, 1, 1, 0, 0, 0, 0, 0, 0, 0],
   [0, 0, 0, 1, 1, 0, 0, 0, 0, 0, 0, 0, 0, 1, 1, 0, 0, 0, 0, 0, 0, 1, 1, 0, 0, 0, 0, 0, 0, 0],
   [0, 0, 0, 1, 1, 0, 0, 0, 0, 0, 0, 0, 0, 1, 1, 0, 0, 0, 0, 0, 0, 1, 1, 1, 1, 1, 0, 0, 0, 0],
   [0, 0, 0, 1, 1, 0, 0, 0, 0, 0, 0, 0, 0, 1, 1, 0, 0, 0, 0, 0, 0, 1, 1, 1, 1, 1, 0, 0, 0, 0],
   [0, 0, 0, 1, 1, 0, 0, 0, 0, 0, 0, 0, 0, 1, 1, 0, 0, 0, 0, 0, 0, 0, 0, 0, 0, 0, 0, 0, 0, 0],
   [0, 0, 0, 1, 1, 0, 0, 0, 0, 0, 0, 0, 0, 1, 1, 0, 0, 0, 0, 0, 0, 0, 0, 0, 0, 0, 0, 0, 0, 0],
   [0, 0, 0, 1, 1, 0, 0, 0, 0, 0, 0, 0, 0, 1, 1, 0, 0, 0, 0, 0, 0, 0, 0, 0, 0, 0, 0, 0, 0, 0],
   [0, 0, 0, 1, 1, 0, 0, 0, 0, 0, 0, 0, 0, 1, 1, 0, 0, 0, 0, 0, 0, 0, 0, 0, 0, 0, 0, 0, 0, 0],
   [0, 0, 0, 1, 1, 0, 0, 0, 0, 0, 0, 0, 0, 1, 1, 0, 0, 0, 0, 0, 0, 0, 0, 0, 0, 0, 0, 0, 0, 0],
   [0, 0, 0, 0, 0, 0, 0, 0, 0, 0, 0, 0, 0, 1, 1, 0, 0, 0, 0, 0, 0, 0, 0, 0, 0, 0, 0, 0, 0, 0],
   [0, 0, 0, 0, 0, 0, 0, 0, 0, 0, 0, 0, 0, 1, 1, 0, 0, 0, 0, 0, 0, 0, 0, 0, 0, 0, 0, 0, 0, 0],
   [0, 0, 0, 0, 0, 0, 0, 0, 0, 0, 0, 0, 0, 1, 1, 0, 0, 0, 0, 0, 0, 0, 0, 0, 0, 0, 0, 0, 0, 0]]

def nfCells : List (List Nat) :=
  [
   [0, 0, 0, 0, 0, 0, 0, 0, 0, 0, 0, 0, 0, 0, 0, 0, 0, 0, 0, 0, 0, 1, 1, 0, 0, 0, 0, 0, 0, 0],
   [0, 0, 0, 0, 0, 0, 0, 0, 0, 0, 0, 0, 0, 0, 0, 0, 0, 0, 0, 0, 0, 1, 1, 0, 0, 0, 0, 0, 0, 0],
   [0, 0, 0, 0, 0, 0, 0, 0, 0, 0, 0, 0, 0, 0, 0, 0, 0, 0, 0, 0, 0, 1, 1, 0, 0, 0, 0, 0, 0, 0],
   [0, 0, 0, 1, 1, 0, 0, 0, 0, 0, 0, 0, 0, 0, 0, 0, 0, 0, 0, 0, 0, 1, 1, 0, 0, 0, 0, 0, 0, 0],
   [0, 0, 0, 1, 1, 0, 0, 0, 0, 0, 0, 0, 0, 1, 1, 0, 0, 0, 0, 0, 0, 1, 1, 0, 0, 0, 0, 0, 0, 0],
   [0, 0, 0, 1, 1, 0, 0, 0, 0, 0, 0, 0, 0, 1, 1, 0, 0, 0, 0, 0, 0, 1, 1, 1, 1, 1, 0, 0, 0, 0],
   [0, 0, 0, 1, 1, 0, 0, 0, 0, 0, 0, 0, 0, 1, 1, 0, 0, 0, 0, 0, 0, 1, 1, 1, 1, 1, 0, 0, 0, 0],
   [0, 0, 0, 1, 1, 0, 0, 0, 0, 0, 0, 1, 1, 1, 1, 0, 0, 0, 0, 0, 0, 1, 0, 0, 0, 0, 0, 0, 0, 0],
   [0, 0, 0, 1, 1, 0, 0, 0, 0, 0, 0, 1, 0, 1, 1, 0, 0, 0, 0, 0, 0, 1, 0, 0, 0, 0, 0, 0, 0, 0],
   [0, 0, 0, 1, 1, 0, 0, 0, 0, 0, 0, 1, 0, 1, 1, 0, 0, 0, 0, 0, 0, 1, 0, 0, 0, 0, 0, 0, 0, 0],
   [0, 0, 0, 1, 1, 0, 0, 0, 0, 0, 0, 1, 0, 1, 1, 0, 0, 0, 0, 0, 0, 1, 0, 0, 0, 0, 0, 0, 0, 0],
   [0, 0, 0, 1, 1, 0, 0, 0, 0, 0, 0, 1, 1, 1, 1, 0, 0, 0, 0, 0, 0, 1, 0, 0, 0, 0, 0, 0, 0, 0],
   [0, 0, 0, 0, 0, 0, 0, 0, 0, 0, 0, 0, 0, 1, 1, 0, 0, 0, 0, 0, 0, 1, 0, 0, 0, 0, 0, 0, 0, 0],
   [0, 0, 0, 0, 0, 0, 0, 0, 0, 0, 0, 0, 0, 1, 1, 0, 0, 0, 0, 0, 0, 1, 0, 0, 0, 0, 0, 0, 0, 0],
   [0, 0, 0, 0, 0, 0, 0, 0, 0, 0, 0, 0, 0, 1, 1, 0, 0, 0, 0, 0, 0, 1, 0, 0, 0, 0, 0, 0, 0, 0]]

def distTab : List (List Nat) :=
  [
   [31, 30, 29, 28, 27, 26, 25, 24, 23, 22, 21, 20, 19, 18, 17, 16, 15, 14, 13, 12, 11, 0, 0, 20, 19, 18, 17, 18, 19, 20],
   [30, 29, 28, 27, 26, 25, 24, 23, 22, 21, 20, 19, 18, 17, 16, 15, 14, 13, 12, 11, 10, 0, 0, 19, 18, 17, 16, 17, 18, 19],
   [29, 28, 27, 26, 25, 24, 23, 22, 21, 20, 19, 18, 17, 16, 15, 14, 13, 12, 11, 10, 9, 0, 0, 18, 17, 16, 15, 16, 17, 18],
   [30, 29, 28, 0, 0, 23, 22, 21, 20, 19, 18, 17, 16, 15, 14, 13, 12, 11, 10, 9, 8, 0, 0, 17, 16, 15, 14, 15, 16, 17],
   [31, 30, 29, 0, 0, 24, 23, 22, 21, 20, 19, 18, 17, 0, 0, 12, 11, 10, 9, 8, 7, 0, 0, 16, 15, 14, 13, 14, 15, 16],
   [32, 31, 30, 0, 0, 25, 24, 23, 22, 21, 20, 19, 18, 0, 0, 11, 10, 9, 8, 7, 6, 0, 0, 0, 0, 0, 12, 13, 14, 15],
   [33, 32, 31, 0, 0, 26, 25, 24, 23, 22, 21, 20, 19, 0, 0, 10, 9, 8, 7, 6, 5, 0, 0, 0, 0, 0, 11, 12, 13, 14],
   [34, 33, 32, 0, 0, 27, 26, 25, 24, 23, 22, 21, 20, 0, 0, 9, 8, 7, 6, 5, 4, 5, 6, 7, 8, 9, 10, 11, 12, 13],
   [35, 34, 33, 0, 0, 28, 27, 26, 25, 24, 23, 22, 21, 0, 0, 8, 7, 6, 5, 4, 3, 4, 5, 6, 7, 8, 9, 10, 11, 12],
   [36, 35, 34, 0, 0, 29, 28, 27, 26, 25, 24, 23, 22, 0, 0, 7, 6, 5, 4, 3, 2, 3, 4, 5, 6, 7, 8, 9, 10, 11],
   [37, 36, 35, 0, 0, 30, 29, 28, 27, 26, 25, 24, 23, 0, 0, 6, 5, 4, 3, 2, 1, 2, 3, 4, 5, 6, 7, 8, 9, 10],
   [38, 37, 36, 0, 0, 31, 30, 29, 28, 27, 26, 25, 24, 0, 0, 5, 4, 3, 2, 1, 0, 1, 2, 3, 4, 5, 6, 7, 8, 9],
   [37, 36, 35, 34, 33, 32, 31, 30, 29, 28, 27, 26, 25, 0, 0, 6, 5, 4, 3, 2, 1, 2, 3, 4, 5, 6, 7, 8, 9, 10],
   [38, 37, 36, 35, 34, 33, 32, 31, 30, 29, 28, 27, 26, 0, 0, 7, 6, 5, 4, 3, 2, 3, 4, 5, 6, 7, 8, 9, 10, 11],
   [39, 38, 37, 36, 35, 34, 33, 32, 31, 30, 29, 28, 27, 0, 0, 8, 7, 6, 5, 4, 3, 4, 5, 6, 7, 8, 9, 10, 11, 12]]

def reachTab : List (List Nat) :=
  [
   [1, 1, 1, 1, 1, 1, 1, 1, 1, 1, 1, 1, 1, 1, 1, 1, 1, 1, 1, 1, 1, 0, 0, 0, 0, 0, 0, 0, 0, 0],
   [1, 1, 1, 1, 1, 1, 1, 1, 1, 1, 1, 1, 1, 1, 1, 1, 1, 1, 1, 1, 1, 0, 0, 0, 0, 0, 0, 0, 0, 0],
   [1, 1, 1, 1, 1, 1, 1, 1, 1, 1, 1, 1, 1, 1, 1, 1, 1, 1, 1, 1, 1, 0, 0, 0, 0, 0, 0, 0, 0, 0],
   [1, 1, 1, 0, 0, 1, 1, 1, 1, 1, 1, 1, 1, 1, 1, 1, 1, 1, 1, 1, 1, 0, 0, 0, 0, 0, 0, 0, 0, 0],
   [1, 1, 1, 0, 0, 1, 1, 1, 1, 1, 1, 1, 1, 0, 0, 1, 1, 1, 1, 1, 1, 0, 0, 0, 0, 0, 0, 0, 0, 0],
   [1, 1, 1, 0, 0, 1, 1, 1, 1, 1, 1, 1, 1, 0, 0, 1, 1, 1, 1, 1, 1, 0, 0, 0, 0, 0, 0, 0, 0, 0],
   [1, 1, 1, 0, 0, 1, 1, 1, 1, 1, 1, 1, 1, 0, 0, 1, 1, 1, 1, 1, 1, 0, 0, 0, 0, 0, 0, 0, 0, 0],
   [1, 1, 1, 0, 0, 1, 1, 1, 1, 1, 1, 0, 0, 0, 0, 1, 1, 1, 1, 1, 1, 0, 0, 0, 0, 0, 0, 0, 0, 0],
   [1, 1, 1, 0, 0, 1, 1, 1, 1, 1, 1, 0, 0, 0, 0, 1, 1, 1, 1, 1, 1, 0, 0, 0, 0, 0, 0, 0, 0, 0],
   [1, 1, 1, 0, 0, 1, 1, 1, 1, 1, 1, 0, 0, 0, 0, 1, 1, 1, 1, 1, 1, 0, 0, 0, 0, 0, 0, 0, 0, 0],
   [1, 1, 1, 0, 0, 1, 1, 1, 1, 1, 1, 0, 0, 0, 0, 1, 1, 1, 1, 1, 1, 0, 0, 0, 0, 0, 0, 0, 0, 0],
   [1, 1, 1, 0, 0, 1, 1, 1, 1, 1, 1, 0, 0, 0, 0, 1, 1, 1, 1, 1, 1, 0, 0, 0, 0, 0, 0, 0, 0, 0],
   [1, 1, 1, 1, 1, 1, 1, 1, 1, 1, 1, 1, 1, 0, 0, 1, 1, 1, 1, 1, 1, 0, 0, 0, 0, 0, 0, 0, 0, 0],
   [1, 1, 1, 1, 1, 1, 1, 1, 1, 1, 1, 1, 1, 0, 0, 1, 1, 1, 1, 1, 1, 0, 0, 0, 0, 0, 0, 0, 0, 0],
   [1, 1, 1, 1, 1, 1, 1, 1, 1, 1, 1, 1, 1, 0, 0, 1, 1, 1, 1, 1, 1, 0, 0, 0, 0, 0, 0, 0, 0, 0]]

def path36 : List (Nat × Nat) :=
  [
   (9, 0), (8, 0), (7, 0), (6, 0), (5, 0), (4, 0),
   (3, 0), (2, 0), (2, 1), (2, 2), (2, 3), (2, 4),
   (2, 5), (3, 5), (3, 6), (3, 7), (3, 8), (3, 9),
   (3, 10), (3, 11), (3, 12), (3, 13), (3, 14), (3, 15),
   (4, 15), (5, 15), (6, 15), (7, 15), (8, 15), (9, 15),
   (10, 15), (11, 15), (11, 16), (11, 17), (11, 18), (11, 19),
   (11, 20)]

/-- Distance-to-goal table lookup for the `simple_test` grid (value for
blocked cells is irrelevant and set to 0). -/
def dval (c : Nat × Nat) : Nat := (distTab.getD c.1 []).getD c.2 0

/-- Membership in the region of the `simple_test_not_found` grid reachable
from `(0, 0)`. -/
def inR (c : Nat × Nat) : Bool := ((reachTab.getD c.1 []).getD c.2 0) == 1

/-- Check that two cells, when both traversable, agree on membership in
the candidate reachable region. -/
def pairSame (m : Map) (R : Nat × Nat → Bool) (a b : Nat × Nat) : Bool :=
  !(m.traversable a.1 a.2 && m.traversable b.1 b.2) || (R a == R b)

/-- The closure-certificate check: every vertically or horizontally
adjacent pair of traversable cells inside `h × w` agrees on region
membership (so the region is closed under traversable moves). -/
def closedOK (m : Map) (R : Nat × Nat → Bool) (h w : Nat) : Bool :=
  (List.range h).all (fun i => (List.range w).all (fun j =>
    pairSame m R (i, j) (i + 1, j) && pairSame m R (i, j) (i, j + 1)))

theorem closedOK_all (m : Map) (R : Nat × Nat → Bool) (h w : Nat)
    (hc : closedOK m R h w = true) (i j : Nat) (hi : i < h) (hj : j < w) :
    pairSame m R (i, j) (i + 1, j) = true ∧ pairSame m R (i, j) (i, j + 1) = true := by
  simp only [closedOK, List.all_eq_true] at hc
  have := hc i (List.mem_range.mpr hi) j (List.mem_range.mpr hj)
  exact Bool.and_eq_true_iff.mp this

theorem pairSame_eq (m : Map) (R : Nat × Nat → Bool) (a b : Nat × Nat)
    (h : pairSame m R a b = true)
    (ha : m.traversable a.1 a.2 = true) (hb : m.traversable b.1 b.2 = true) :
    R a = R b := by
  simp [pairSame, ha, hb] at h
  exact h

theorem step_R_eq (m : Map) (R : Nat × Nat → Bool) (h w : Nat)
    (hh : m.cells.length ≤ h) (hw : ∀ i, (m.cells.getD i []).length ≤ w)
    (hcl : closedOK m R h w = true) :
    ∀ a b, stepOK m a b = true → R a = R b := by
  intro a b hs
  obtain ⟨a1, a2⟩ := a
  obtain ⟨b1, b2⟩ := b
  obtain ⟨ha, hb, hoff⟩ := step_offsets m a1 a2 b1 b2 hs
  obtain ⟨hai, haj⟩ := traversable_lt m a1 a2 ha
  obtain ⟨hbi, hbj⟩ := traversable_lt m b1 b2 hb
  have hai2 : a1 < h := lt_of_lt_of_le hai hh
  have haj2 : a2 < w := lt_of_lt_of_le haj (hw a1)
  have hbi2 : b1 < h := lt_of_lt_of_le hbi hh
  have hbj2 : b2 < w := lt_of_lt_of_le hbj (hw b1)
  rcases hoff with ⟨e1, e2⟩ | ⟨e1, e2⟩ | ⟨e1, e2⟩ | ⟨e1, e2⟩
  · rw [e1, e2] at hb ⊢
    exact pairSame_eq m R (a1, a2) (a1 + 1, a2)
      (closedOK_all m R h w hcl a1 a2 hai2 haj2).1 ha hb
  · rw [e1, e2] at ha ⊢
    exact (pairSame_eq m R (b1, b2) (b1 + 1, b2)
      (closedOK_all m R h w hcl b1 b2 hbi2 hbj2).1 hb ha).symm
  · rw [e1, e2] at hb ⊢
    exact pairSame_eq m R (a1, a2) (a1, a2 + 1)
      (closedOK_all m R h w hcl a1 a2 hai2 haj2).2 ha hb
  · rw [e1, e2] at ha ⊢
    exact (pairSame_eq m R (b1, b2) (b1, b2 + 1)
      (closedOK_all m R h w hcl b1 b2 hbi2 hbj2).2 hb ha).symm

theorem chain_R (m : Map) (R : Nat × Nat → Bool)
    (hstep : ∀ a b, stepOK m a b = true → R a = R b) :
    ∀ (p : List (Nat × Nat)) (a z : Nat × Nat), chainOK m p = true →
      p.head? = some a → p.getLast? = some z → R a = R z := by
  intro p
  induction p with
  | nil => intro a z _ hh; simp at hh
  | cons x xs ih =>
    intro a z hch hh hl
    cases xs with
    | nil =>
      simp at hh hl
      subst hh; subst hl
      rfl
    | cons y ys =>
      obtain ⟨h1, h2⟩ : stepOK m x y = true ∧ chainOK m (y :: ys) = true := by
        simpa [chainOK, Bool.and_eq_true] using hch
      simp only [List.head?_cons, Option.some.injEq] at hh
      subst hh
      have hl2 : (y :: ys).getLast? = some z := by
        simpa [List.getLast?_cons_cons] using hl
      exact (hstep x y h1).trans (ih y z h2 rfl hl2)

/-- The map string of `simple_test` parses to exactly the literal cell
matrix `simpleCells`. -/
theorem simpleMap_cells : simpleMap = ⟨simpleCells⟩ := by decide

/-- The map string of `simple_test_not_found` parses to exactly the
literal cell matrix `nfCells`. -/
theorem nfMap_cells : notFoundMap = ⟨nfCells⟩ := by decide

theorem simpleCells_row_le (i : Nat) : (simpleCells.getD i []).length ≤ 30 := by
  by_cases hi : i < 15
  · interval_cases i <;> decide
  · have hlen : simpleCells.length ≤ i := by
      have h15 : simpleCells.length = 15 := by decide
      omega
    rw [List.getD_eq_default _ _ hlen]
    simp

theorem nfCells_row_le (i : Nat) : (nfCells.getD i []).length ≤ 30 := by
  by_cases hi : i < 15
  · interval_cases i <;> decide
  · have hlen : nfCells.length ≤ i := by
      have h15 : nfCells.length = 15 := by decide
      omega
    rw [List.getD_eq_default _ _ hlen]
    simp

/-- C8: on the curated `simple_test` grid, task 0 is `(9, 0) → (11, 20)`
with expected length 36; a 4-connected path through traversable cells of
exactly 36 unit-cost moves exists (`path36`), and no shorter valid path
does, so 36 is the shortest-path length a correct algorithm must find and
report. -/
theorem simple_grid_task0_shortest36 :
    (starts.getD 0 (0, 0) = (9, 0) ∧ goals.getD 0 (0, 0) = (11, 20) ∧
      lengths.getD 0 0 = 36) ∧
    validPath simpleMap (9, 0) (11, 20) path36 = true ∧
    pathLen path36 = 36 ∧
    (∀ p, validPath simpleMap (9, 0) (11, 20) p = true → 36 ≤ pathLen p) := by
  refine ⟨⟨by decide, by decide, by decide⟩, ?_, by decide, ?_⟩
  · rw [simpleMap_cells]
    decide
  · intro p hp
    rw [simpleMap_cells] at hp
    obtain ⟨hh, hl, hch⟩ := validPath_parts _ _ _ _ hp
    have hstep := step_dval_bound ⟨simpleCells⟩ dval 15 30 (by decide)
      simpleCells_row_le (by decide)
    have hbound := chain_dval _ _ hstep p (9, 0) (11, 20) hch hh hl
    have d1 : dval (9, 0) = 36 := by decide
    have d2 : dval (11, 20) = 0 := by decide
    rw [d1, d2] at hbound
    simpa [pathLen] using hbound

/-- Witness for C8: the explicit 36-move path is valid, so the lower
bound of the theorem is attained at it. -/
theorem simple_grid_task0_shortest36_witness : 36 ≤ pathLen path36 :=
  simple_grid_task0_shortest36.2.2.2 path36 (by rw [simpleMap_cells]; decide)

/-- C9: on the `simple_test_not_found` grid, task 0 is `(0, 0) → (14, 25)`
and no 4-connected path through traversable cells connects them (the
blocked column separates the two regions), so a correct algorithm must
report `found = False`; `simple_test_not_found` then reports that outcome
as correct. -/
theorem nf_grid_task0_unreachable :
    (startsNF.getD 0 (0, 0) = (0, 0) ∧ goalsNF.getD 0 (0, 0) = (14, 25)) ∧
    (∀ p, validPath notFoundMap (0, 0) (14, 25) p = false) ∧
    (∀ (search : SearchFn) (r : Nat) (res : SearchResult),
      search notFoundMap 0 0 14 25 = Except.ok res → res.found = false →
      simple_test_not_found search (some 0) r =
        NotFoundOutcome.notFoundCorrect res.treeSize res.steps) := by
  refine ⟨⟨by decide, by decide⟩, ?_, ?_⟩
  · intro p
    by_contra hne
    rw [Bool.not_eq_false] at hne
    rw [nfMap_cells] at hne
    obtain ⟨hh, hl, hch⟩ := validPath_parts _ _ _ _ hne
    have hstep := step_R_eq ⟨nfCells⟩ inR 15 30 (by decide) nfCells_row_le (by decide)
    have hreach := chain_R _ _ hstep p (0, 0) (14, 25) hch hh hl
    have r1 : inR (0, 0) = true := by decide
    have r2 : inR (14, 25) = false := by decide
    rw [r1, r2] at hreach
    exact absurd hreach (by decide)
  · intro search r res hs hf
    simp [simple_test_not_found, pickTask, startsNF, goalsNF, hs, hf]

/-- Witness for C9: a stub algorithm reporting "not found" on task 0 is
reported as correct. -/
theorem nf_grid_task0_unreachable_witness :
    simple_test_not_found stubSearch (some 0) 0 = NotFoundOutcome.notFoundCorrect 0 0 :=
  nf_grid_task0_unreachable.2.2 stubSearch 0 ⟨false, none, 0, 0⟩ rfl rfl
